import Mathlib

/-!
Verification of the transactional CSV store of `budget_dashboard.py`.

The embedding models table files at the level pandas sees them after a
successful parse: a file is a header (list of column names) plus rows of
cells, where a cell is a string, a number, or NaN (a missing value — an
empty CSV field, or an unparsable numeric).  Pure functions of the source
(`load_transactions`, `generate_transaction_id`, `calculate_totals`,
`category_tally`, `apply_recurring_to_month`, the edit/delete handlers)
are translated into Lean functions over this model; the on-disk store is
an explicit map from month keys to optional raw files, and
`save_transactions` is explicit state passing on that map.  Writing goes
through the CSV text medium: `to_csv` emits the empty string and NaN both
as an empty field, and a later `read_csv` returns an empty field as NaN
and re-parses numeric-looking text, so the write composed with the next
read is lossy (`csvCell` below).  Numbers are modelled as `Rat` (amounts)
and `Int` (ids).  The failure modes of `read_csv` itself on a present but
unparsable file (a zero-byte file, ragged rows) are outside the model: a
stored file is always an already-parsed table.
-/

/-- A pandas cell: a string, a numeric value, or NaN. -/
inductive Cell where
  | str (s : String)
  | num (q : Rat)
  | nan
deriving Repr, DecidableEq

/-- A raw tabular file as parsed by pandas: a header row of column names
and data rows of cells (row `i`, column `j` is `rows[i][j]`, the value of
column `cols[j]`). -/
structure RawFile where
  cols : List String
  rows : List (List Cell)
deriving Repr, DecidableEq

/-- Digits-only string to number, `none` if empty or a non-digit occurs. -/
def digitsToNat (cs : List Char) : Option Nat :=
  if cs = [] then none
  else if cs.all Char.isDigit then
    some (cs.foldl (fun n c => 10 * n + (c.toNat - 48)) 0)
  else none

/-- Parse a decimal literal (optional sign, optional fractional part) as a
rational; `none` when unparsable.  Models `pd.to_numeric` on a string. -/
def parseRat (s : String) : Option Rat :=
  let t := s.trim
  let neg := t.startsWith ("-")
  let body := if neg then t.drop 1 else t
  match body.splitOn (".") with
  | [intPart] =>
      (digitsToNat intPart.toList).map fun n =>
        if neg then -(n : Rat) else (n : Rat)
  | [intPart, fracPart] =>
      match digitsToNat intPart.toList, digitsToNat fracPart.toList with
      | some n, some m =>
          let q : Rat := (n : Rat) + (m : Rat) / ((10 : Rat) ^ fracPart.length)
          some (if neg then -q else q)
      | _, _ => none
  | _ => none

/-- Numeric coercion of a cell, as `pd.to_numeric(errors="coerce")`:
numbers pass through, strings are parsed, NaN and unparsable give `none`. -/
def toNumeric (c : Cell) : Option Rat :=
  match c with
  | Cell.num q => some q
  | Cell.str s => parseRat s
  | Cell.nan => none

/-- Truncation toward zero, as numpy `astype(int)` on a float. -/
def ratTrunc (q : Rat) : Int :=
  if q < 0 then -(Int.floor (-q)) else Int.floor q

/-- The effect of the CSV text medium on one cell: what `read_csv` returns
for the field that `to_csv` wrote.  The empty string and NaN are both
written as an empty field, which reads back as NaN; numeric-looking text
reads back as a number; any other string survives; a written number reads
back as the same number (float repr round-trips). -/
def csvCell (c : Cell) : Cell :=
  match c with
  | Cell.str s =>
      if s = "" then Cell.nan
      else
        match parseRat s with
        | some q => Cell.num q
        | none => Cell.str s
  | Cell.num q => Cell.num q
  | Cell.nan => Cell.nan

/-- The declared transaction columns, in order (`required_cols` in
`load_transactions`). -/
def required_cols : List String :=
  ["id", "date", "type", "amount", "category", "note", "source"]

/-- The text-typed columns of the transaction schema: these backfill with
the empty string, the remaining two (`id`, `amount`) with zero. -/
def textCols : List String := ["date", "type", "category", "note", "source"]

/-- Value of column `c` in `row` of file `f`: the cell at the index of the
column when the column exists in the header (NaN when the row is short,
as pandas pads missing trailing cells), otherwise the typed backfill
default of `load_transactions` (`""` for text columns, `0` otherwise). -/
def cellFor (f : RawFile) (row : List Cell) (c : String) : Cell :=
  match f.cols.findIdx? (fun x => x = c) with
  | some i => row.getD i Cell.nan
  | none => if textCols.contains c then Cell.str ("") else Cell.num 0

/-- An in-memory transaction row as `load_transactions` returns it:
integer id and numeric amount (coerced), and the five text columns as raw
cells — pandas leaves a text column value that is NaN (or a number) as it
is, so the text fields must carry cells, not strings. -/
structure Transaction where
  id : Int
  date : Cell
  type : Cell
  amount : Rat
  category : Cell
  note : Cell
  source : Cell
deriving Repr, DecidableEq

/-- One row of `load_transactions`: backfill missing columns, coerce `id`
to an integer and `amount` to a number (unparsable values become 0); the
text columns pass through untouched. -/
def loadRowTxn (f : RawFile) (r : List Cell) : Transaction :=
  { id := ratTrunc ((toNumeric (cellFor f r ("id"))).getD 0)
    date := cellFor f r ("date")
    type := cellFor f r ("type")
    amount := (toNumeric (cellFor f r ("amount"))).getD 0
    category := cellFor f r ("category")
    note := cellFor f r ("note")
    source := cellFor f r ("source") }

/-- `load_transactions` applied to the content of an existing month file:
every row typed by `loadRowTxn`. -/
def load_transactions (f : RawFile) : List Transaction :=
  f.rows.map (loadRowTxn f)

/-- The coercion `load_transactions` applies to the cell of column `c`:
`id` becomes an integer-valued number, `amount` a number, text passes. -/
def loadCol (f : RawFile) (r : List Cell) (c : String) : Cell :=
  if c = "id" then Cell.num ((ratTrunc ((toNumeric (cellFor f r ("id"))).getD 0) : Int) : Rat)
  else if c = "amount" then Cell.num ((toNumeric (cellFor f r ("amount"))).getD 0)
  else cellFor f r c

/-- `load_transactions` viewed at the table level (the dataframe
`df[required_cols]` it returns): exactly the declared columns, in order,
extra file columns dropped. -/
def load_transactions_table (f : RawFile) : RawFile :=
  { cols := required_cols
    rows := f.rows.map (fun r => required_cols.map (loadCol f r)) }

/-- The stored image of one in-memory transaction after `df.to_csv` and
the next parse: id and amount are written as numbers and read back
exactly, while each text cell goes through the CSV medium (`csvCell`), so
an empty-string cell is stored as NaN. -/
def renderRow (t : Transaction) : List Cell :=
  [Cell.num (t.id : Rat), csvCell t.date, csvCell t.type,
   Cell.num t.amount, csvCell t.category, csvCell t.note, csvCell t.source]

/-- The full file written by `save_transactions df year month`
(`df.to_csv`, complete overwrite), as the next `read_csv` sees it. -/
def renderTransactions (df : List Transaction) : RawFile :=
  { cols := required_cols, rows := df.map renderRow }

/-- The image of an in-memory transaction after a save-and-reload cycle:
id and amount survive, each text cell goes through the CSV medium. -/
def csvTxn (t : Transaction) : Transaction :=
  { id := t.id
    date := csvCell t.date
    type := csvCell t.type
    amount := t.amount
    category := csvCell t.category
    note := csvCell t.note
    source := csvCell t.source }

/-- A month key `(year, month)`, the unit of transaction partitioning. -/
abbrev MonthKey := Nat × Nat

/-- The on-disk store: each month key maps to the parsed content of its
file when the file exists.  A present file is always an already-parsed
table: `read_csv` raising on unparsable bytes (a zero-byte file, ragged
rows) is outside this model, so no totality claim about loading is made. -/
abbrev Store := MonthKey → Option RawFile

/-- `load_transactions(year, month)` against a store: read and type the
month file when it exists, otherwise the empty table. -/
def load_transactions_store (store : Store) (k : MonthKey) : List Transaction :=
  match store k with
  | some f => load_transactions f
  | none => []

/-- `save_transactions(df, year, month)`: rewrite the month file in full
with the rendered table, leaving every other file unchanged. -/
def save_transactions_store (store : Store) (k : MonthKey) (df : List Transaction) : Store :=
  fun j => if j = k then some (renderTransactions df) else store j

/-- Largest id in a nonempty table (`df["id"].max()`); 0 for an empty
table, where the source never evaluates it. -/
def maxId : List Transaction → Int
  | [] => 0
  | t :: ts => ts.foldl (fun m u => max m u.id) t.id

/-- `generate_transaction_id(df)`: 1 when the table is empty, otherwise
`int(df["id"].max()) + 1`. -/
def generate_transaction_id (df : List Transaction) : Int :=
  if df = [] then 1 else maxId df + 1

/-- `calculate_totals(df)`: `(0, 0, 0)` when empty, else the income sum,
the expense sum and their difference; a row whose type cell is NaN or any
other value matches neither filter. -/
def calculate_totals (df : List Transaction) : Rat × Rat × Rat :=
  if df = [] then (0, 0, 0)
  else
    let income := ((df.filter (fun t => t.type = Cell.str ("income"))).map Transaction.amount).sum
    let expenses := ((df.filter (fun t => t.type = Cell.str ("expense"))).map Transaction.amount).sum
    (income, expenses, income - expenses)

/-- Whether a cell is a pandas NA value. -/
def isNA (c : Cell) : Bool :=
  match c with
  | Cell.nan => true
  | _ => false

/-- One output row of `category_tally`; the fields are the renamed
"Category", "Type" and "Total" columns (key cells and a numeric total). -/
structure TallyRow where
  tcat : Cell
  ttype : Cell
  total : Rat
deriving Repr, DecidableEq

/-- The group keys of `df.groupby(["category", "type"])`: pandas groupby
defaults to `dropna=True`, so a row whose category or type is NaN yields
no key and is dropped from the tally; keys in first occurrence order. -/
def tallyKeys (df : List Transaction) : List (Cell × Cell) :=
  ((df.filter (fun t => !(isNA t.category) && !(isNA t.type))).map
    (fun t => (t.category, t.type))).dedup

/-- Grouped sum of `amount` over the rows of one `(category, type)` key. -/
def groupSum (df : List Transaction) (k : Cell × Cell) : Rat :=
  ((df.filter (fun t => t.category = k.1 ∧ t.type = k.2)).map Transaction.amount).sum

/-- Order on key cells for the tally sort (string and numeric keys are
ordered within their kind; after the NaN drop no NaN key occurs). -/
def cellLT (a b : Cell) : Bool :=
  match a, b with
  | Cell.str s1, Cell.str s2 => decide (s1 < s2)
  | Cell.num q1, Cell.num q2 => decide (q1 < q2)
  | _, _ => false

/-- Sort order of `category_tally`: `Type` ascending, then `Total`
descending. -/
def tallyLE (a b : TallyRow) : Bool :=
  if a.ttype = b.ttype then decide (b.total ≤ a.total) else cellLT a.ttype b.ttype

/-- `category_tally(df)`: grouped sum of amount by `(category, type)` with
NaN keys dropped (pandas groupby default), sorted by type ascending then
total descending; empty for an empty table. -/
def category_tally (df : List Transaction) : List TallyRow :=
  if df = [] then []
  else
    ((tallyKeys df).map (fun k => TallyRow.mk k.1 k.2 (groupSum df k))).mergeSort tallyLE

/-- The Delete button handler of the Transactions tab:
`df[df["id"] != tid]`, the table with every row of that id filtered out. -/
def delete_transaction (df : List Transaction) (tid : Int) : List Transaction :=
  df.filter (fun t => t.id ≠ tid)

/-- The Save button handler of the Transactions tab:
`df.loc[df["id"] == tid, ["amount", "category", "note", "date", "source"]]`
assigned the edited values — those five fields of every row of that id
(the handler passes the entered strings and the chosen amount). -/
def edit_transaction (df : List Transaction) (tid : Int) (amt : Rat)
    (cat note date src : Cell) : List Transaction :=
  df.map (fun t =>
    if t.id = tid then
      { t with amount := amt, category := cat, note := note, date := date, source := src }
    else t)

/-- A loaded recurring-charge template row.  `load_recurring` applies no
numeric coercion, so for the claims about `apply_recurring_to_month` the
id and amount carry the numeric types a schema-conforming file holds; the
text fields are raw cells, as pandas keeps them. -/
structure RecurringRow where
  id : Int
  type : Cell
  amount : Rat
  category : Cell
  note : Cell
  source : Cell
deriving Repr, DecidableEq

/-- The blank-source test of `apply_recurring_to_month`:
`pd.isna(source_value) or not str(source_value).strip()`. -/
def isBlankSource (c : Cell) : Bool :=
  match c with
  | Cell.nan => true
  | Cell.str s => s.trim = ""
  | Cell.num _ => false

/-- The transaction `apply_recurring_to_month` synthesizes from one
template against the current table `df`: fresh id, dated today, fields
copied as they are, blank source defaulting to "Recurring". -/
def mkRecurringTxn (today : String) (df : List Transaction) (row : RecurringRow) : Transaction :=
  { id := generate_transaction_id df
    date := Cell.str today
    type := row.type
    amount := row.amount
    category := row.category
    note := row.note
    source := if isBlankSource row.source then Cell.str ("Recurring") else row.source }

/-- The loop of `apply_recurring_to_month`: fold each template into the
growing table, counting the appended rows. -/
def applyRecurringAux (today : String) (df : List Transaction) :
    List RecurringRow → List Transaction × Nat
  | [] => (df, 0)
  | row :: rest =>
      let step := applyRecurringAux today (df ++ [mkRecurringTxn today df row]) rest
      (step.1, step.2 + 1)

/-- `apply_recurring_to_month(year, month)` with the loaded recurring table
passed explicitly: returns 0 and the untouched store when there are no
templates, otherwise appends the synthesized transactions and saves the
month file once. -/
def apply_recurring_to_month (rec : List RecurringRow) (store : Store)
    (k : MonthKey) (today : String) : Store × Nat :=
  if rec = [] then (store, 0)
  else
    let df := load_transactions_store store k
    let step := applyRecurringAux today df rec
    (save_transactions_store store k step.1, step.2)

/-- `load_recurring` on the content of an existing recurring file: the file
as read, with a `source` column of empty strings appended when absent.  No
other column is backfilled and no numeric coercion happens. -/
def load_recurring_table (f : RawFile) : RawFile :=
  if f.cols.contains ("source") then f
  else { cols := f.cols ++ ["source"], rows := f.rows.map (fun r => r ++ [Cell.str ("")]) }

/-- What `apply_recurring_to_month` promises of one synthesized in-memory
transaction `t` against its template `row`: dated today, the four data
fields copied as they are, and the source defaulting to "Recurring" when
blank and kept otherwise. -/
def recFieldSpec (today : String) (row : RecurringRow) (t : Transaction) : Prop :=
  t.date = Cell.str today ∧ t.type = row.type ∧ t.amount = row.amount ∧
  t.category = row.category ∧ t.note = row.note ∧
  t.source = if isBlankSource row.source then Cell.str ("Recurring") else row.source

/-- The store with no month file at all. -/
def emptyStore : Store := fun _ => none

/-- A sample income transaction used by concrete witnesses. -/
def txIncome : Transaction :=
  ⟨1, Cell.str ("2024-03-15"), Cell.str ("income"), 5, Cell.str ("Salary"),
   Cell.str (""), Cell.str ("Bank")⟩

/-- A transaction of a type other than income/expense, as a file with an
arbitrary `type` value produces on load. -/
def txOther : Transaction :=
  ⟨1, Cell.str ("2024-01-01"), Cell.str ("transfer"), 5, Cell.str ("Misc"),
   Cell.str (""), Cell.str ("")⟩

/-- An income transaction whose category cell is NaN, as an empty category
field in a file with the column present produces on load. -/
def txNanCat : Transaction :=
  ⟨1, Cell.str ("2024-01-05"), Cell.str ("income"), 5, Cell.nan,
   Cell.str (""), Cell.str ("")⟩

/-- A schema-conforming transaction with an empty note, as the entry form
produces when the optional note is left blank. -/
def txEmptyNote : Transaction :=
  ⟨1, Cell.str ("2024-03-15"), Cell.str ("expense"), 5, Cell.str ("Food"),
   Cell.str (""), Cell.str ("Card")⟩

/-- Two distinct transactions sharing id 1, as a month file with a
duplicated id column produces on load. -/
def dupRow1 : Transaction :=
  ⟨1, Cell.str ("2024-01-01"), Cell.str ("expense"), 1, Cell.str ("Food"),
   Cell.str (""), Cell.str ("Card")⟩

/-- Second row of the duplicated-id table. -/
def dupRow2 : Transaction :=
  ⟨1, Cell.str ("2024-01-02"), Cell.str ("expense"), 2, Cell.str ("Rent"),
   Cell.str (""), Cell.str ("Card")⟩

/-- A transaction with id 2, partner of `dupRow1` in a well-formed table. -/
def uniqRow2 : Transaction :=
  ⟨2, Cell.str ("2024-01-02"), Cell.str ("expense"), 2, Cell.str ("Rent"),
   Cell.str (""), Cell.str ("Card")⟩

/-- A recurring file missing the declared `amount`, `type`, `category` and
`note` columns. -/
def recFileNoAmount : RawFile := ⟨["id"], [[Cell.num 1]]⟩

/-- A month file whose only column holds an unparsable id value. -/
def fileUnparsable : RawFile := ⟨["id"], [[Cell.str ("x")]]⟩

/-- A recurring template with a blank source, used by concrete witnesses. -/
def recTemplate : RecurringRow :=
  ⟨1, Cell.str ("income"), 1000, Cell.str ("Salary"), Cell.str (""), Cell.str ("")⟩

theorem ratTrunc_intCast (i : Int) : ratTrunc (i : Rat) = i := by
  unfold ratTrunc
  rcases lt_or_le (i : Rat) 0 with h | h
  · rw [if_pos h, ← Int.cast_neg, Int.floor_intCast, neg_neg]
  · rw [if_neg (not_lt.mpr h), Int.floor_intCast]

theorem ratTrunc_zero : ratTrunc 0 = 0 := by
  have h := ratTrunc_intCast 0
  simpa using h

theorem loadRowTxn_renderRow (df : List Transaction) (t : Transaction) :
    loadRowTxn (renderTransactions df) (renderRow t) = csvTxn t := by
  show Transaction.mk (ratTrunc ((t.id : Int) : Rat)) (csvCell t.date) (csvCell t.type)
    t.amount (csvCell t.category) (csvCell t.note) (csvCell t.source) = csvTxn t
  rw [ratTrunc_intCast]
  rfl

theorem load_transactions_render (df : List Transaction) :
    load_transactions (renderTransactions df) = df.map csvTxn := by
  unfold load_transactions
  show (df.map renderRow).map (loadRowTxn (renderTransactions df)) = df.map csvTxn
  rw [List.map_map]
  exact List.map_congr_left fun t _ => loadRowTxn_renderRow df t

theorem load_store_save (store : Store) (k : MonthKey) (df : List Transaction) :
    load_transactions_store (save_transactions_store store k df) k = df.map csvTxn := by
  unfold load_transactions_store save_transactions_store
  rw [if_pos rfl]
  exact load_transactions_render df

theorem foldl_max_le (ts : List Transaction) : ∀ a : Int,
    a ≤ ts.foldl (fun m u => max m u.id) a ∧
    ∀ u ∈ ts, u.id ≤ ts.foldl (fun m u => max m u.id) a := by
  induction ts with
  | nil => intro a; simp
  | cons v vs ih =>
      intro a
      constructor
      · exact le_trans (le_max_left a v.id) (ih (max a v.id)).1
      · intro u hu
        rcases List.mem_cons.mp hu with rfl | hm
        · exact le_trans (le_max_right a u.id) (ih (max a u.id)).1
        · exact (ih (max a v.id)).2 u hm

theorem mem_le_maxId {t : Transaction} {df : List Transaction} (h : t ∈ df) :
    t.id ≤ maxId df := by
  cases df with
  | nil => cases h
  | cons v vs =>
      unfold maxId
      rcases List.mem_cons.mp h with rfl | hm
      · exact (foldl_max_le vs t.id).1
      · exact (foldl_max_le vs v.id).2 t hm

theorem mem_id_lt_generate {t : Transaction} {df : List Transaction} (h : t ∈ df) :
    t.id < generate_transaction_id df := by
  have hne : df ≠ [] := by rintro rfl; cases h
  unfold generate_transaction_id
  rw [if_neg hne]
  exact lt_of_le_of_lt (mem_le_maxId h) (lt_add_one _)

/-- C3: `generate_transaction_id` returns 1 on the empty table, and on any
table a value strictly greater than every present id, namely the maximum
id plus one when the table is nonempty. -/
theorem generate_transaction_id_spec :
    generate_transaction_id [] = 1 ∧
    ∀ df : List Transaction,
      (∀ t ∈ df, t.id < generate_transaction_id df) ∧
      (df ≠ [] → generate_transaction_id df = maxId df + 1) := by
  refine ⟨rfl, fun df => ⟨fun t ht => mem_id_lt_generate ht, fun hne => ?_⟩⟩
  unfold generate_transaction_id
  rw [if_neg hne]

/-- Witness for C3 at the one-row table `[txIncome]`. -/
theorem generate_transaction_id_spec_witness :
    txIncome.id < generate_transaction_id [txIncome] ∧
    generate_transaction_id [txIncome] = maxId [txIncome] + 1 :=
  ⟨(generate_transaction_id_spec.2 [txIncome]).1 txIncome (by simp),
   (generate_transaction_id_spec.2 [txIncome]).2 (by simp)⟩

/-- C2 counterexample: a schema-conforming table whose single row has an
empty note is not returned unchanged by a save-and-load cycle — `to_csv`
writes the empty note as an empty field, which `read_csv` returns as NaN,
and the saved file carries all declared columns, so the failure is not
covered by the typed-backfill proviso. -/
theorem save_load_not_identity_cex :
    load_transactions_store (save_transactions_store emptyStore (2024, 3) [txEmptyNote]) (2024, 3)
      ≠ [txEmptyNote] := by
  rw [load_store_save]
  intro h
  have h1 : csvTxn txEmptyNote = txEmptyNote := by simpa using h
  have h2 : Cell.nan = Cell.str ("") := congrArg Transaction.note h1
  cases h2

/-- C2 amended: a save-and-load cycle is the identity on the id and amount
columns and returns each text cell through the CSV medium: the empty
string comes back as NaN (written as an empty field), numeric-looking text
comes back as a number, NaN and numbers are unchanged, and the reloaded
table is exactly the cellwise image `csvTxn` of the saved one. -/
theorem save_load_roundtrip :
    csvCell (Cell.str ("")) = Cell.nan ∧
    csvCell Cell.nan = Cell.nan ∧
    (∀ q : Rat, csvCell (Cell.num q) = Cell.num q) ∧
    (∀ t : Transaction, (csvTxn t).id = t.id ∧ (csvTxn t).amount = t.amount) ∧
    ∀ (store : Store) (k : MonthKey) (df : List Transaction),
      load_transactions_store (save_transactions_store store k df) k = df.map csvTxn :=
  ⟨rfl, rfl, fun _ => rfl, fun _ => ⟨rfl, rfl⟩,
   fun store k df => load_store_save store k df⟩

/-- C8: `calculate_totals` returns all zeros on the empty table, and its
third component is always the first minus the second. -/
theorem calculate_totals_spec :
    calculate_totals [] = (0, 0, 0) ∧
    ∀ df : List Transaction,
      (calculate_totals df).2.2 = (calculate_totals df).1 - (calculate_totals df).2.1 := by
  refine ⟨rfl, fun df => ?_⟩
  by_cases h : df = []
  · subst h; norm_num [calculate_totals]
  · simp [calculate_totals, h]

/-- C9: the Save (edit) handler rewrites only the amount, category, note,
date and source of the rows bearing the edited id; every row keeps its id
and type, and rows with a different id are unchanged entirely. -/
theorem edit_transaction_frame_spec (df : List Transaction) (tid : Int) (amt : Rat)
    (cat note date src : Cell) :
    List.Forall₂ (fun t u =>
      u.id = t.id ∧ u.type = t.type ∧
      (t.id ≠ tid → u = t) ∧
      (t.id = tid → u.amount = amt ∧ u.category = cat ∧ u.note = note ∧
        u.date = date ∧ u.source = src))
      df (edit_transaction df tid amt cat note date src) := by
  unfold edit_transaction
  induction df with
  | nil => simp
  | cons a rest ih =>
      rw [List.map_cons]
      refine List.Forall₂.cons ?_ ih
      by_cases h : a.id = tid
      · simp [h]
      · simp [h]

/-- Witness for C9: editing id 1 in a concrete two-row table. -/
theorem edit_transaction_frame_witness :
    List.Forall₂ (fun t u =>
      u.id = t.id ∧ u.type = t.type ∧
      (t.id ≠ 1 → u = t) ∧
      (t.id = 1 → u.amount = 3 ∧ u.category = Cell.str ("Groceries") ∧
        u.note = Cell.str ("n") ∧ u.date = Cell.str ("2024-02-02") ∧
        u.source = Cell.str ("Cash")))
      [dupRow1, uniqRow2]
      (edit_transaction [dupRow1, uniqRow2] 1 3 (Cell.str ("Groceries")) (Cell.str ("n"))
        (Cell.str ("2024-02-02")) (Cell.str ("Cash"))) :=
  edit_transaction_frame_spec [dupRow1, uniqRow2] 1 3 (Cell.str ("Groceries")) (Cell.str ("n"))
    (Cell.str ("2024-02-02")) (Cell.str ("Cash"))

/-- C5 counterexample: on a table where two rows share id 1 (reachable,
since `load_transactions` enforces no uniqueness), the Delete handler
removes both rows, not exactly one. -/
theorem delete_duplicate_ids_cex :
    delete_transaction [dupRow1, dupRow2] 1 = [] ∧
    ¬ (delete_transaction [dupRow1, dupRow2] 1).length = [dupRow1, dupRow2].length - 1 := by
  constructor
  · rfl
  · decide

/-- C5 amended: when exactly one row of the table bears the selected id,
the Delete handler removes exactly that row and leaves every other row,
in order and unchanged. -/
theorem delete_transaction_unique_spec (df : List Transaction) (tid : Int)
    (h : (df.filter (fun t => t.id = tid)).length = 1) :
    ∃ pre t post, df = pre ++ t :: post ∧ t.id = tid ∧
      (∀ u ∈ pre, u.id ≠ tid) ∧ (∀ u ∈ post, u.id ≠ tid) ∧
      delete_transaction df tid = pre ++ post := by
  induction df with
  | nil => simp at h
  | cons a rest ih =>
      by_cases ha : a.id = tid
      · have hrest : ∀ u ∈ rest, u.id ≠ tid := by
          simp [List.filter_cons, ha] at h
          exact h
        refine ⟨[], a, rest, by simp, ha, by simp, hrest, ?_⟩
        unfold delete_transaction
        rw [List.filter_cons_of_neg (by simp [ha]),
          List.filter_eq_self.mpr (fun u hu => by simpa using hrest u hu)]
        simp
      · have h2 : (rest.filter (fun t => t.id = tid)).length = 1 := by
          simpa [List.filter_cons, ha] using h
        obtain ⟨pre, t, post, hdf, hti, hpre, hpost, hdel⟩ := ih h2
        refine ⟨a :: pre, t, post, by rw [hdf]; rfl, hti, ?_, hpost, ?_⟩
        · intro u hu
          rcases List.mem_cons.mp hu with rfl | hm
          · exact ha
          · exact hpre u hm
        · unfold delete_transaction at hdel ⊢
          rw [List.filter_cons_of_pos (by simpa using ha), hdel]
          rfl

/-- Witness for C5 amended at a table where id 1 occurs exactly once. -/
theorem delete_transaction_unique_witness :
    ([dupRow1, uniqRow2].filter (fun t => t.id = 1)).length = 1 ∧
    ∃ pre t post, [dupRow1, uniqRow2] = pre ++ t :: post ∧ t.id = 1 ∧
      (∀ u ∈ pre, u.id ≠ 1) ∧ (∀ u ∈ post, u.id ≠ 1) ∧
      delete_transaction [dupRow1, uniqRow2] 1 = pre ++ post :=
  ⟨by decide, delete_transaction_unique_spec [dupRow1, uniqRow2] 1 (by decide)⟩

/-- C10: for every file content, the loaded month table carries exactly the
seven declared columns in order, each row has exactly seven cells, its id
cell is an integer-valued number and its amount cell is a number. -/
theorem load_transactions_table_shape (f : RawFile) :
    (load_transactions_table f).cols = required_cols ∧
    ∀ r ∈ (load_transactions_table f).rows,
      r.length = 7 ∧
      (∃ i : Int, r.getD 0 Cell.nan = Cell.num (i : Rat)) ∧
      (∃ q : Rat, r.getD 3 Cell.nan = Cell.num q) := by
  refine ⟨rfl, fun r hr => ?_⟩
  simp only [load_transactions_table, List.mem_map] at hr
  obtain ⟨r0, _, rfl⟩ := hr
  refine ⟨by simp [required_cols], ?_, ?_⟩
  · exact ⟨ratTrunc ((toNumeric (cellFor f r0 ("id"))).getD 0),
      by simp [required_cols, loadCol]⟩
  · exact ⟨(toNumeric (cellFor f r0 ("amount"))).getD 0,
      by simp [required_cols, loadCol]⟩

/-- Witness for C10 at a one-row file holding an unparsable id and no
other declared column. -/
theorem load_transactions_table_shape_witness :
    required_cols.map (loadCol fileUnparsable [Cell.str ("x")])
      ∈ (load_transactions_table fileUnparsable).rows ∧
    ((required_cols.map (loadCol fileUnparsable [Cell.str ("x")])).length = 7 ∧
      (∃ i : Int, (required_cols.map (loadCol fileUnparsable [Cell.str ("x")])).getD 0 Cell.nan
        = Cell.num (i : Rat)) ∧
      (∃ q : Rat, (required_cols.map (loadCol fileUnparsable [Cell.str ("x")])).getD 3 Cell.nan
        = Cell.num q)) :=
  ⟨by simp [load_transactions_table, fileUnparsable],
   (load_transactions_table_shape fileUnparsable).2 _
     (by simp [load_transactions_table, fileUnparsable])⟩

theorem applyRecurringAux_spec (today : String) :
    ∀ (rec : List RecurringRow) (df : List Transaction),
      (applyRecurringAux today df rec).2 = rec.length ∧
      ∃ ext, (applyRecurringAux today df rec).1 = df ++ ext ∧
        List.Forall₂ (recFieldSpec today) rec ext ∧
        ext.Pairwise (fun a b => a.id < b.id) ∧
        ∀ t ∈ df, ∀ e ∈ ext, t.id < e.id := by
  intro rec
  induction rec with
  | nil =>
      intro df
      exact ⟨rfl, [], by simp [applyRecurringAux], List.Forall₂.nil, List.Pairwise.nil,
        by simp⟩
  | cons row rest ih =>
      intro df
      obtain ⟨hcount, ext, hext, hfields, hpw, hlt⟩ :=
        ih (df ++ [mkRecurringTxn today df row])
      constructor
      · show (applyRecurringAux today (df ++ [mkRecurringTxn today df row]) rest).2 + 1
          = rest.length + 1
        rw [hcount]
      · refine ⟨mkRecurringTxn today df row :: ext, ?_, ?_, ?_, ?_⟩
        · show (applyRecurringAux today (df ++ [mkRecurringTxn today df row]) rest).1
            = df ++ (mkRecurringTxn today df row :: ext)
          rw [hext]
          simp
        · exact List.Forall₂.cons ⟨rfl, rfl, rfl, rfl, rfl, rfl⟩ hfields
        · exact List.Pairwise.cons
            (fun e he => hlt (mkRecurringTxn today df row) (by simp) e he) hpw
        · intro t ht e he
          rcases List.mem_cons.mp he with rfl | hm
          · exact mem_id_lt_generate ht
          · exact hlt t (List.mem_append_left _ ht) e hm

/-- C1: applying k recurring templates to a month rewrites the month file
with the loaded table plus exactly k appended rows — each new id strictly
above every id present when it was assigned, hence pairwise distinct and
above all pre-existing ids, and still in place after the reload — and the
call returns k; with no templates it returns 0 and leaves the store
untouched. -/
theorem apply_recurring_appends_spec :
    (∀ (store : Store) (k : MonthKey) (today : String),
      apply_recurring_to_month [] store k today = (store, 0)) ∧
    ∀ (rec : List RecurringRow) (store : Store) (k : MonthKey) (today : String),
      (apply_recurring_to_month rec store k today).2 = rec.length ∧
      (rec ≠ [] → ∃ ext,
        (apply_recurring_to_month rec store k today).1
          = save_transactions_store store k (load_transactions_store store k ++ ext) ∧
        load_transactions_store (apply_recurring_to_month rec store k today).1 k
          = (load_transactions_store store k ++ ext).map csvTxn ∧
        ext.length = rec.length ∧
        ext.Pairwise (fun a b => a.id < b.id) ∧
        ∀ t ∈ load_transactions_store store k, ∀ e ∈ ext, t.id < e.id) := by
  constructor
  · intro store k today
    rfl
  · intro rec store k today
    by_cases hrec : rec = []
    · subst hrec
      exact ⟨rfl, fun hne => absurd rfl hne⟩
    · obtain ⟨hcount, ext, hext, hfields, hpw, hlt⟩ :=
        applyRecurringAux_spec today rec (load_transactions_store store k)
      constructor
      · show (if rec = [] then (store, 0) else _).2 = rec.length
        rw [if_neg hrec]
        exact hcount
      · intro _
        refine ⟨ext, ?_, ?_, (List.Forall₂.length_eq hfields).symm, hpw, hlt⟩
        · show (if rec = [] then (store, 0) else
              (save_transactions_store store k
                (applyRecurringAux today (load_transactions_store store k) rec).1,
               (applyRecurringAux today (load_transactions_store store k) rec).2)).1
            = save_transactions_store store k (load_transactions_store store k ++ ext)
          rw [if_neg hrec, hext]
        · show load_transactions_store
            (if rec = [] then (store, 0) else
              (save_transactions_store store k
                (applyRecurringAux today (load_transactions_store store k) rec).1,
               (applyRecurringAux today (load_transactions_store store k) rec).2)).1 k
            = (load_transactions_store store k ++ ext).map csvTxn
          rw [if_neg hrec, load_store_save, hext]

/-- Witness for C1: one template applied to the empty April 2024 store. -/
theorem apply_recurring_appends_witness :
    ([recTemplate] ≠ ([] : List RecurringRow)) ∧
    (apply_recurring_to_month [recTemplate] emptyStore (2024, 4) "2024-04-01").2
      = [recTemplate].length ∧
    ∃ ext,
      (apply_recurring_to_month [recTemplate] emptyStore (2024, 4) "2024-04-01").1
        = save_transactions_store emptyStore (2024, 4)
            (load_transactions_store emptyStore (2024, 4) ++ ext) ∧
      load_transactions_store
          (apply_recurring_to_month [recTemplate] emptyStore (2024, 4) "2024-04-01").1
          (2024, 4)
        = (load_transactions_store emptyStore (2024, 4) ++ ext).map csvTxn ∧
      ext.length = [recTemplate].length ∧
      ext.Pairwise (fun a b => a.id < b.id) ∧
      ∀ t ∈ load_transactions_store emptyStore (2024, 4), ∀ e ∈ ext, t.id < e.id :=
  ⟨by simp,
   (apply_recurring_appends_spec.2 [recTemplate] emptyStore (2024, 4) "2024-04-01").1,
   (apply_recurring_appends_spec.2 [recTemplate] emptyStore (2024, 4) "2024-04-01").2
     (by simp)⟩

/-- C7: when there are templates to apply, the month file is rewritten
with the loaded rows plus one synthesized in-memory transaction per
template, each dated today, copying the type, amount, category and note
cells of its template as they are, with source "Recurring" exactly on the
blank branch (NaN or whitespace-only, as the characterization states) and
the template source kept otherwise. -/
theorem apply_recurring_fields_spec :
    (∀ c : Cell, isBlankSource c = true ↔
      c = Cell.nan ∨ ∃ s, c = Cell.str s ∧ s.trim = "") ∧
    ∀ (rec : List RecurringRow) (store : Store) (k : MonthKey) (today : String),
      rec ≠ [] →
      ∃ ext,
        (apply_recurring_to_month rec store k today).1
          = save_transactions_store store k (load_transactions_store store k ++ ext) ∧
        List.Forall₂ (recFieldSpec today) rec ext := by
  constructor
  · intro c
    cases c with
    | str s => simp [isBlankSource]
    | num q => simp [isBlankSource]
    | nan => simp [isBlankSource]
  · intro rec store k today hrec
    obtain ⟨hcount, ext, hext, hfields, hpw, hlt⟩ :=
      applyRecurringAux_spec today rec (load_transactions_store store k)
    refine ⟨ext, ?_, hfields⟩
    show (if rec = [] then (store, 0) else
        (save_transactions_store store k
          (applyRecurringAux today (load_transactions_store store k) rec).1,
         (applyRecurringAux today (load_transactions_store store k) rec).2)).1
      = save_transactions_store store k (load_transactions_store store k ++ ext)
    rw [if_neg hrec, hext]

/-- Witness for C7: one blank-source template applied to the empty April
2024 store. -/
theorem apply_recurring_fields_witness :
    ([recTemplate] ≠ ([] : List RecurringRow)) ∧
    ∃ ext,
      (apply_recurring_to_month [recTemplate] emptyStore (2024, 4) "2024-04-01").1
        = save_transactions_store emptyStore (2024, 4)
            (load_transactions_store emptyStore (2024, 4) ++ ext) ∧
      List.Forall₂ (recFieldSpec ("2024-04-01")) [recTemplate] ext :=
  ⟨by simp,
   apply_recurring_fields_spec.2 [recTemplate] emptyStore (2024, 4) "2024-04-01" (by simp)⟩

theorem cellFor_of_not_mem {f : RawFile} {r : List Cell} {c : String} (h : c ∉ f.cols) :
    cellFor f r c = if textCols.contains c then Cell.str ("") else Cell.num 0 := by
  unfold cellFor
  have hidx : f.cols.findIdx? (fun x => x = c) = none := by
    rw [List.findIdx?_eq_none_iff]
    intro x hx
    simp only [decide_eq_false_iff_not]
    rintro rfl
    exact h hx
  rw [hidx]

/-- C4 counterexample: a recurring file missing the declared `amount`
column loads to a table still missing that column — `load_recurring`
backfills only `source`, so the claimed typed backfill of every declared
column fails for it. -/
theorem load_recurring_no_backfill_cex :
    "amount" ∉ (load_recurring_table recFileNoAmount).cols ∧
    (load_recurring_table recFileNoAmount).cols = ["id", "source"] := by
  constructor
  · decide
  · decide

/-- C4 amended: within the model of successfully parsed files (the raise
paths of `read_csv` itself — a zero-byte file, ragged rows — are outside
it, so no never-raises totality is claimed), `load_transactions` backfills
every missing declared column with its typed default (empty string for
the five text columns, zero for `id` and `amount`) and coerces unparsable
`id`/`amount` values to zero, while `load_recurring` only guarantees a
`source` column (appending an empty-string one when absent) and backfills
no other missing column. -/
theorem load_backfill_spec :
    (∀ (f : RawFile) (r : List Cell),
      ("id" ∉ f.cols → (loadRowTxn f r).id = 0) ∧
      ("amount" ∉ f.cols → (loadRowTxn f r).amount = 0) ∧
      ("date" ∉ f.cols → (loadRowTxn f r).date = Cell.str ("")) ∧
      ("type" ∉ f.cols → (loadRowTxn f r).type = Cell.str ("")) ∧
      ("category" ∉ f.cols → (loadRowTxn f r).category = Cell.str ("")) ∧
      ("note" ∉ f.cols → (loadRowTxn f r).note = Cell.str ("")) ∧
      ("source" ∉ f.cols → (loadRowTxn f r).source = Cell.str ("")) ∧
      (toNumeric (cellFor f r ("id")) = none → (loadRowTxn f r).id = 0) ∧
      (toNumeric (cellFor f r ("amount")) = none → (loadRowTxn f r).amount = 0)) ∧
    (∀ f : RawFile,
      "source" ∈ (load_recurring_table f).cols ∧
      ("source" ∉ f.cols →
        (load_recurring_table f).cols = f.cols ++ ["source"] ∧
        (load_recurring_table f).rows = f.rows.map (fun r => r ++ [Cell.str ("")]))) := by
  constructor
  · intro f r
    refine ⟨?_, ?_, ?_, ?_, ?_, ?_, ?_, ?_, ?_⟩
    · intro h
      simp [loadRowTxn, cellFor_of_not_mem h, textCols, toNumeric, ratTrunc_zero]
    · intro h
      simp [loadRowTxn, cellFor_of_not_mem h, textCols, toNumeric]
    · intro h
      simp [loadRowTxn, cellFor_of_not_mem h, textCols]
    · intro h
      simp [loadRowTxn, cellFor_of_not_mem h, textCols]
    · intro h
      simp [loadRowTxn, cellFor_of_not_mem h, textCols]
    · intro h
      simp [loadRowTxn, cellFor_of_not_mem h, textCols]
    · intro h
      simp [loadRowTxn, cellFor_of_not_mem h, textCols]
    · intro h
      simp [loadRowTxn, h, ratTrunc_zero]
    · intro h
      simp [loadRowTxn, h]
  · intro f
    by_cases hs : "source" ∈ f.cols
    · constructor
      · simp [load_recurring_table, hs]
      · intro hns
        exact absurd hs hns
    · constructor
      · simp [load_recurring_table, hs]
      · intro _
        exact ⟨by simp [load_recurring_table, hs], by simp [load_recurring_table, hs]⟩

/-- Witness for C4 amended: a file whose header is only `id` loads with a
zero amount, and a file-borne unparsable id loads to zero. -/
theorem load_backfill_spec_witness :
    "amount" ∉ fileUnparsable.cols ∧
    (loadRowTxn fileUnparsable [Cell.str ("x")]).amount = 0 :=
  ⟨by decide, (load_backfill_spec.1 fileUnparsable [Cell.str ("x")]).2.1 (by decide)⟩

theorem sum_map_filter_add (p : Transaction → Bool) (l : List Transaction) :
    ((l.filter p).map Transaction.amount).sum
      + ((l.filter (fun t => !(p t))).map Transaction.amount).sum
      = (l.map Transaction.amount).sum := by
  induction l with
  | nil => simp
  | cons a rest ih =>
      cases hpa : p a <;> simp [List.filter_cons, hpa] <;> linarith [ih]

theorem groupSum_eq (l : List Transaction) (k : Cell × Cell) :
    groupSum l k
      = ((l.filter (fun t => decide ((t.category, t.type) = k))).map Transaction.amount).sum := by
  have hf : l.filter (fun t => decide (t.category = k.1 ∧ t.type = k.2))
      = l.filter (fun t => decide ((t.category, t.type) = k)) :=
    List.filter_congr (fun t _ => by simp [Prod.ext_iff])
  unfold groupSum
  rw [hf]

theorem key_partition (KS : List (Cell × Cell)) :
    ∀ l : List Transaction, KS.Nodup → (∀ t ∈ l, (t.category, t.type) ∈ KS) →
      (KS.map (fun k => groupSum l k)).sum = (l.map Transaction.amount).sum := by
  induction KS with
  | nil =>
      intro l _ hcov
      have hl : l = [] := by
        cases l with
        | nil => rfl
        | cons a r => exact absurd (hcov a (by simp)) (by simp)
      subst hl
      simp
  | cons k ks ih =>
      intro l hnd hcov
      obtain ⟨hknotin, hndks⟩ := List.nodup_cons.mp hnd
      have hrestr : ∀ k2 ∈ ks, groupSum l k2
          = groupSum (l.filter (fun t => !(decide ((t.category, t.type) = k)))) k2 := by
        intro k2 hk2
        have hf : (l.filter (fun t => !(decide ((t.category, t.type) = k)))).filter
              (fun t => decide (t.category = k2.1 ∧ t.type = k2.2))
            = l.filter (fun t => decide (t.category = k2.1 ∧ t.type = k2.2)) := by
          rw [List.filter_filter]
          apply List.filter_congr
          intro t _
          by_cases hm : t.category = k2.1 ∧ t.type = k2.2
          · simp [hm]
            intro hh
            exact hknotin (hh ▸ hk2)
          · simp [hm]
        unfold groupSum
        rw [hf]
      have hcov2 : ∀ t ∈ l.filter (fun t => !(decide ((t.category, t.type) = k))),
          (t.category, t.type) ∈ ks := by
        intro t ht
        obtain ⟨htl, htp⟩ := List.mem_filter.mp ht
        rcases List.mem_cons.mp (hcov t htl) with hk | hks
        · rw [hk] at htp
          simp at htp
        · exact hks
      have ihr := ih (l.filter (fun t => !(decide ((t.category, t.type) = k)))) hndks hcov2
      rw [List.map_cons, List.sum_cons, List.map_congr_left hrestr, ihr, groupSum_eq]
      exact sum_map_filter_add (fun t => decide ((t.category, t.type) = k)) l

theorem isNA_eq_false {c : Cell} : isNA c = false ↔ c ≠ Cell.nan := by
  cases c <;> simp [isNA]

theorem groupSum_restrict (df : List Transaction) (k : Cell × Cell)
    (h1 : isNA k.1 = false) (h2 : isNA k.2 = false) :
    groupSum df k
      = groupSum (df.filter (fun t => !(isNA t.category) && !(isNA t.type))) k := by
  have hf : (df.filter (fun t => !(isNA t.category) && !(isNA t.type))).filter
        (fun t => decide (t.category = k.1 ∧ t.type = k.2))
      = df.filter (fun t => decide (t.category = k.1 ∧ t.type = k.2)) := by
    rw [List.filter_filter]
    apply List.filter_congr
    intro t _
    by_cases hm : t.category = k.1 ∧ t.type = k.2
    · simp [hm, h1, h2]
    · simp [hm]
  unfold groupSum
  rw [hf]

theorem category_tally_sum (df : List Transaction) (h : df ≠ []) :
    ((category_tally df).map TallyRow.total).sum
      = ((df.filter (fun t => !(isNA t.category) && !(isNA t.type))).map
          Transaction.amount).sum := by
  unfold category_tally
  rw [if_neg h]
  have hperm :=
    (List.mergeSort_perm
      ((tallyKeys df).map (fun k => TallyRow.mk k.1 k.2 (groupSum df k))) tallyLE).map
      TallyRow.total
  rw [hperm.sum_eq, List.map_map]
  have hre : ∀ k ∈ tallyKeys df,
      (TallyRow.total ∘ fun k => TallyRow.mk k.1 k.2 (groupSum df k)) k
        = groupSum (df.filter (fun t => !(isNA t.category) && !(isNA t.type))) k := by
    intro k hk
    obtain ⟨t0, ht0, hk0⟩ := List.mem_map.mp (List.mem_dedup.mp hk)
    obtain ⟨_, ht0p⟩ := List.mem_filter.mp ht0
    simp only [Bool.and_eq_true, Bool.not_eq_true'] at ht0p
    have h1 : isNA k.1 = false := by
      rw [← hk0]
      exact ht0p.1
    have h2 : isNA k.2 = false := by
      rw [← hk0]
      exact ht0p.2
    exact groupSum_restrict df k h1 h2
  rw [List.map_congr_left hre]
  exact key_partition (tallyKeys df)
    (df.filter (fun t => !(isNA t.category) && !(isNA t.type)))
    (List.nodup_dedup _)
    (fun t ht => List.mem_dedup.mpr (List.mem_map_of_mem _ ht))

theorem totals_income_expense (df : List Transaction)
    (h : ∀ t ∈ df, t.type = Cell.str ("income") ∨ t.type = Cell.str ("expense")) :
    (df.map Transaction.amount).sum
      = (calculate_totals df).1 + (calculate_totals df).2.1 := by
  by_cases hdf : df = []
  · subst hdf
    simp [calculate_totals]
  · simp only [calculate_totals, if_neg hdf]
    have hsum := sum_map_filter_add (fun t => decide (t.type = Cell.str ("income"))) df
    have hfe : df.filter (fun t => !(decide (t.type = Cell.str ("income"))))
        = df.filter (fun t => decide (t.type = Cell.str ("expense"))) := by
      apply List.filter_congr
      intro t ht
      rcases h t ht with hi | he
      · simp [hi]
      · simp [he]
    rw [hfe] at hsum
    linarith [hsum]

/-- C6 counterexample, at two reachable tables: a single row of type
"transfer" tallies to 5 while `calculate_totals` reports income and
expense sums of 0; and a single income row with a NaN category (an empty
category field under a present column) is dropped by the NaN-key
groupby but counted by `calculate_totals`, 0 against 5. -/
theorem category_tally_totals_cex :
    (((category_tally [txOther]).map TallyRow.total).sum
      ≠ (calculate_totals [txOther]).1 + (calculate_totals [txOther]).2.1) ∧
    (((category_tally [txNanCat]).map TallyRow.total).sum
      ≠ (calculate_totals [txNanCat]).1 + (calculate_totals [txNanCat]).2.1) := by
  constructor
  · have hL : ((category_tally [txOther]).map TallyRow.total).sum = 5 := by
      rw [category_tally_sum [txOther] (by simp)]
      simp [txOther, isNA]
    have hR : (calculate_totals [txOther]).1 + (calculate_totals [txOther]).2.1 = 0 := by
      simp [calculate_totals, txOther]
    rw [hL, hR]
    norm_num
  · have hL : ((category_tally [txNanCat]).map TallyRow.total).sum = 0 := by
      rw [category_tally_sum [txNanCat] (by simp)]
      simp [txNanCat, isNA]
    have hR : (calculate_totals [txNanCat]).1 + (calculate_totals [txNanCat]).2.1 = 5 := by
      simp [calculate_totals, txNanCat]
    rw [hL, hR]
    norm_num

/-- C6 amended: on tables whose every row is typed "income" or "expense"
and has a non-NA category (so no row is dropped by the groupby NaN-key
rule), the grouped totals of `category_tally` sum to the income plus
expense sums of `calculate_totals`. -/
theorem category_tally_totals_spec (df : List Transaction)
    (h : ∀ t ∈ df, (t.type = Cell.str ("income") ∨ t.type = Cell.str ("expense")) ∧
      t.category ≠ Cell.nan) :
    ((category_tally df).map TallyRow.total).sum
      = (calculate_totals df).1 + (calculate_totals df).2.1 := by
  by_cases hdf : df = []
  · subst hdf
    simp [category_tally, calculate_totals]
  · rw [category_tally_sum df hdf]
    have hfid : df.filter (fun t => !(isNA t.category) && !(isNA t.type)) = df := by
      rw [List.filter_eq_self]
      intro t ht
      obtain ⟨hty, hcat⟩ := h t ht
      have h1 : isNA t.category = false := isNA_eq_false.mpr hcat
      have h2 : isNA t.type = false := by
        rcases hty with hh | hh <;> rw [hh] <;> rfl
      simp [h1, h2]
    rw [hfid]
    exact totals_income_expense df (fun t ht => (h t ht).1)

/-- Witness for C6 amended at the one-row income table. -/
theorem category_tally_totals_witness :
    (∀ t ∈ [txIncome], (t.type = Cell.str ("income") ∨ t.type = Cell.str ("expense")) ∧
      t.category ≠ Cell.nan) ∧
    ((category_tally [txIncome]).map TallyRow.total).sum
      = (calculate_totals [txIncome]).1 + (calculate_totals [txIncome]).2.1 := by
  have hh : ∀ t ∈ [txIncome],
      (t.type = Cell.str ("income") ∨ t.type = Cell.str ("expense")) ∧
      t.category ≠ Cell.nan := by
    intro t ht
    rw [List.mem_singleton.mp ht]
    exact ⟨Or.inl rfl, by simp [txIncome]⟩
  exact ⟨hh, category_tally_totals_spec [txIncome] hh⟩
